import Mathlib

/-!
Verification of the sonoff-minir3 client's request/response mapping layer
(`src/models.rs`): typed request builders, response interpreters for the
device's `{data, error}` JSON envelope, and the numeric-error-code
translation.  Rust panics (`panic!`, `Option::unwrap` on `None`) are made
explicit as the `crash` outcome of `DeviceResult`.
-/

namespace SonoffMiniR3

/-- Outlet index the client always targets (`const OUTLET2USE: u8 = 0`). -/
def OUTLET2USE : Nat := 0

/-- Errors returned by the device API (`enum Error`); the source has the
single variant `WrongParameters` for code 400. -/
inductive Error where
  | wrongParameters : Error
deriving DecidableEq, Repr

/-- Outcome of running a fallible piece of Rust code: a normal value
(`Ok`), a typed `Error` returned through `Result` (`Err`), or a
process-aborting Rust panic, modelled as `crash`. -/
inductive DeviceResult (α : Type) where
  | ok : α → DeviceResult α
  | err : Error → DeviceResult α
  | crash : DeviceResult α
deriving DecidableEq, Repr

/-- The `Error::from_api_error_code` constructor: code 400 yields
`WrongParameters`; every other code hits `panic!("Unexpected api error")`,
modelled as `crash`. -/
def Error.fromApiErrorCode (code : Nat) : DeviceResult Error :=
  match code with
  | 400 => .ok .wrongParameters
  | _ => .crash

/-- Current switch position (`enum SwitchPosition`), serialized with
serde's `rename_all = "lowercase"`. -/
inductive SwitchPosition where
  | on : SwitchPosition
  | off : SwitchPosition
deriving DecidableEq, Repr

/-- Switch position on device startup (`enum StartupPosition`); `stay`
keeps the last known position. -/
inductive StartupPosition where
  | on : StartupPosition
  | off : StartupPosition
  | stay : StartupPosition
deriving DecidableEq, Repr

/-- One per-outlet switch entry (`struct Switch { switch, outlet: u8 }`). -/
structure Switch where
  switch : SwitchPosition
  outlet : Nat
deriving DecidableEq, Repr

/-- One per-outlet startup entry (`struct Startup { startup, outlet: u8 }`). -/
structure Startup where
  startup : StartupPosition
  outlet : Nat
deriving DecidableEq, Repr

/-- Device info extracted for outlet 0 (`struct Info`). -/
structure Info where
  switch : SwitchPosition
  startup : StartupPosition
deriving DecidableEq, Repr

/-- Payload of a decoded info response (`struct InfoData`). -/
structure InfoData where
  switches : List Switch
  configure : List Startup
deriving DecidableEq, Repr

/-- The decoded info response envelope (`struct InfoResponse`): an
optional data payload and a `usize` error code. -/
structure InfoResponse where
  data : Option InfoData
  error : Nat
deriving DecidableEq, Repr

/-- The interpreter `impl TryFrom<InfoResponse> for Info`.  On
`error == 0` the source calls `value.data.unwrap()` and then
`.find(|s| s.outlet == OUTLET2USE).unwrap()` on both lists; each `unwrap`
on a missing value is a Rust panic, modelled as `crash`.  On a nonzero
code it returns `Err(Error::from_api_error_code(v))`, whose inner panic
on unmapped codes propagates. -/
def Info.tryFrom (value : InfoResponse) : DeviceResult Info :=
  match value.error with
  | 0 =>
    match value.data with
    | none => .crash
    | some data =>
      match data.switches.find? (fun s => s.outlet == OUTLET2USE) with
      | none => .crash
      | some sw =>
        match data.configure.find? (fun s => s.outlet == OUTLET2USE) with
        | none => .crash
        | some st => .ok { switch := sw.switch, startup := st.startup }
  | v =>
    match Error.fromApiErrorCode v with
    | .ok e => .err e
    | _ => .crash

/-- Codes the interpreter passes to `Error::from_api_error_code` for a
given envelope: the source matches `0` first and only the nonzero arm
`v => Err(Error::from_api_error_code(v))` invokes it. -/
def InfoResponse.invokedApiErrorCodes (value : InfoResponse) : List Nat :=
  match value.error with
  | 0 => []
  | v => [v]

/-- Body of a startup-set request (`struct StartupsData`). -/
structure StartupsData where
  configure : List Startup
deriving DecidableEq, Repr

/-- A startup-set request envelope (`struct StartupsRequest`). -/
structure StartupsRequest where
  data : StartupsData
deriving DecidableEq, Repr

/-- The builder `impl From<StartupPosition> for StartupsRequest`: starts
from a one-element vector for outlet 0 carrying the requested position,
then the loop `for i in 1..=3` pushes an `off` entry for each remaining
outlet. -/
def StartupsRequest.fromPosition (value : StartupPosition) : StartupsRequest :=
  let startups : List Startup := [{ startup := value, outlet := OUTLET2USE }]
  let startups :=
    (List.range' 1 3).foldl
      (fun acc i => acc ++ [{ startup := StartupPosition.off, outlet := i }])
      startups
  { data := { configure := startups } }

/-- Body of a switch-set request (`struct SwitchesData`). -/
structure SwitchesData where
  switches : List Switch
deriving DecidableEq, Repr

/-- A switch-set request envelope (`struct SwitchesRequest`). -/
structure SwitchesRequest where
  data : SwitchesData
deriving DecidableEq, Repr

/-- The builder `impl From<SwitchPosition> for SwitchesRequest`: a
single-element vector for outlet 0 carrying the requested position. -/
def SwitchesRequest.fromPosition (value : SwitchPosition) : SwitchesRequest :=
  { data := { switches := [{ switch := value, outlet := OUTLET2USE }] } }

/-- The decoded empty response envelope (`struct EmptyResponse`): only an
error code; serde ignores any data payload since the struct declares no
`data` field. -/
structure EmptyResponse where
  error : Nat
deriving DecidableEq, Repr

/-- The interpreter `impl TryFrom<EmptyResponse> for ()`: `error == 0`
yields unit, a nonzero code yields `Err(Error::from_api_error_code(v))`,
whose panic on unmapped codes propagates. -/
def EmptyResponse.tryInto (value : EmptyResponse) : DeviceResult Unit :=
  match value.error with
  | 0 => .ok ()
  | v =>
    match Error.fromApiErrorCode v with
    | .ok e => .err e
    | _ => .crash

/-- Codes the empty-response interpreter passes to
`Error::from_api_error_code`; only the nonzero arm invokes it. -/
def EmptyResponse.invokedApiErrorCodes (value : EmptyResponse) : List Nat :=
  match value.error with
  | 0 => []
  | v => [v]

/-- Serde serialization of `SwitchPosition` under
`rename_all = "lowercase"`: the variant name, lowercased. -/
def SwitchPosition.encode : SwitchPosition → String
  | .on => "on"
  | .off => "off"

/-- Serde deserialization of `SwitchPosition`: accepts exactly the
lowercase variant tokens. -/
def SwitchPosition.decode (s : String) : Option SwitchPosition :=
  if s = "on" then some .on
  else if s = "off" then some .off
  else none

/-- Serde serialization of `StartupPosition` under
`rename_all = "lowercase"`. -/
def StartupPosition.encode : StartupPosition → String
  | .on => "on"
  | .off => "off"
  | .stay => "stay"

/-- Serde deserialization of `StartupPosition`: accepts exactly the
lowercase variant tokens. -/
def StartupPosition.decode (s : String) : Option StartupPosition :=
  if s = "on" then some .on
  else if s = "off" then some .off
  else if s = "stay" then some .stay
  else none

/-- Wire tokens of an `Info` pair: the serialized forms of its two
enum fields. -/
def Info.encodeTokens (i : Info) : String × String :=
  (i.switch.encode, i.startup.encode)

/-- Decoding an `Info` pair from its two wire tokens. -/
def Info.decodeTokens (p : String × String) : Option Info :=
  match SwitchPosition.decode p.1, StartupPosition.decode p.2 with
  | some sw, some st => some { switch := sw, startup := st }
  | _, _ => none

/-- Helper: `find?` returns the first matching element, skipping a prefix
of non-matching elements and ignoring everything after the match. -/
theorem find?_append_first {α : Type} (p : α → Bool) (pre : List α) (e : α)
    (rest : List α) (hpre : ∀ x ∈ pre, p x = false) (he : p e = true) :
    (pre ++ e :: rest).find? p = some e := by
  induction pre with
  | nil => simp [List.find?_cons, he]
  | cons a l ih =>
    have ha : p a = false := hpre a (by simp)
    simp only [List.cons_append, List.find?_cons, ha]
    exact ih (fun x hx => hpre x (by simp [hx]))

/-- Helper: a list containing an element satisfying the predicate has a
successful `find?`. -/
theorem find?_isSome_of_mem {α : Type} (p : α → Bool) (l : List α) (x : α)
    (hx : x ∈ l) (hp : p x = true) : (l.find? p).isSome = true := by
  induction l with
  | nil => cases hx
  | cons a t ih =>
    rcases List.mem_cons.mp hx with h | h
    · subst h
      simp [List.find?_cons, hp]
    · cases ha : p a with
      | true => simp [List.find?_cons, ha]
      | false => simpa [List.find?_cons, ha] using ih h

/-- C1: the claim (with the spec) requires every unmapped nonzero code,
such as 401, to yield a structured error value; the code maps 400 to
`WrongParameters` but hits `panic!("Unexpected api error")` on 401, so the
interpreter crashes there instead of returning an error value. -/
theorem C1_unmapped_code_crashes :
    Error.fromApiErrorCode 400 = .ok .wrongParameters ∧
    Error.fromApiErrorCode 401 = .crash ∧
    Info.tryFrom { data := none, error := 401 } = .crash := by
  exact ⟨rfl, rfl, rfl⟩

/-- C2: the claim requires a malformed-response error value when a success
envelope lacks an outlet-0 entry; the code instead panics on the `unwrap`
of the failed `find`, while extraction does succeed when both outlet-0
entries are present. -/
theorem C2_missing_outlet0_crashes :
    Info.tryFrom { data := some { switches := [], configure := [] },
                   error := 0 } = .crash ∧
    Info.tryFrom { data := some { switches := [{ switch := .on, outlet := 0 }],
                                  configure := [] },
                   error := 0 } = .crash ∧
    Info.tryFrom { data := some { switches := [{ switch := .on, outlet := 0 }],
                                  configure := [{ startup := .stay, outlet := 0 }] },
                   error := 0 } = .ok { switch := .on, startup := .stay } := by
  exact ⟨rfl, rfl, rfl⟩

/-- C3: the claim requires a malformed-response error value when a success
envelope carries a null data payload; the code panics on
`value.data.unwrap()` instead. -/
theorem C3_null_data_crashes :
    Info.tryFrom { data := none, error := 0 } = .crash := by
  exact rfl

/-- C4: for every startup position, the startup request payload has
exactly 4 entries with outlet indices 0, 1, 2, 3; the outlet-0 entry
carries the requested position and the entries for outlets 1, 2, 3 carry
Off. -/
theorem C4_startup_request_shape (p : StartupPosition) :
    ((StartupsRequest.fromPosition p).data.configure).length = 4 ∧
    ((StartupsRequest.fromPosition p).data.configure).map Startup.outlet = [0, 1, 2, 3] ∧
    ((StartupsRequest.fromPosition p).data.configure)[0]? = some { startup := p, outlet := 0 } ∧
    ((StartupsRequest.fromPosition p).data.configure)[1]? = some { startup := .off, outlet := 1 } ∧
    ((StartupsRequest.fromPosition p).data.configure)[2]? = some { startup := .off, outlet := 2 } ∧
    ((StartupsRequest.fromPosition p).data.configure)[3]? = some { startup := .off, outlet := 3 } := by
  cases p <;> exact ⟨rfl, rfl, rfl, rfl, rfl, rfl⟩

/-- C5: for every switch position, the switch request payload consists of
exactly one entry, with outlet index 0, carrying the requested position. -/
theorem C5_switch_request_shape (p : SwitchPosition) :
    (SwitchesRequest.fromPosition p).data.switches = [{ switch := p, outlet := 0 }] := by
  exact rfl

/-- C6: the claim requires nonzero codes to always yield an error value;
the code yields unit on 0 and `WrongParameters` on 400 (with no data
payload consulted, since `EmptyResponse` declares none), but panics on an
unmapped nonzero code such as 401. -/
theorem C6_empty_response_behavior :
    EmptyResponse.tryInto { error := 0 } = .ok () ∧
    EmptyResponse.tryInto { error := 400 } = .err .wrongParameters ∧
    EmptyResponse.tryInto { error := 401 } = .crash := by
  exact ⟨rfl, rfl, rfl⟩

/-- C7: on the decoded envelope with one off outlet-0 switch entry, one
off outlet-0 configure entry and error 0, the interpreter returns exactly
`Info { switch := off, startup := off }`. -/
theorem C7_concrete_info_extraction :
    Info.tryFrom { data := some { switches := [{ switch := .off, outlet := 0 }],
                                  configure := [{ startup := .off, outlet := 0 }] },
                   error := 0 } = .ok { switch := .off, startup := .off } := by
  exact rfl

/-- C8: serialization of the two position enums produces exactly the
lowercase tokens on, off, stay, and decode after encode is the identity on
both enums and hence on every `Info` pair. -/
theorem C8_serialization_roundtrip :
    (SwitchPosition.encode .on = "on" ∧ SwitchPosition.encode .off = "off" ∧
     StartupPosition.encode .on = "on" ∧ StartupPosition.encode .off = "off" ∧
     StartupPosition.encode .stay = "stay") ∧
    (∀ s : SwitchPosition, SwitchPosition.decode s.encode = some s) ∧
    (∀ s : StartupPosition, StartupPosition.decode s.encode = some s) ∧
    (∀ i : Info, Info.decodeTokens i.encodeTokens = some i) := by
  refine ⟨⟨rfl, rfl, rfl, rfl, rfl⟩, ?_, ?_, ?_⟩
  · intro s; cases s <;> rfl
  · intro s; cases s <;> rfl
  · intro i
    obtain ⟨sw, st⟩ := i
    cases sw <;> cases st <;> rfl

/-- C9: on a success envelope whose lists contain several outlet-0
entries, the interpreter uses the first outlet-0 entry of each list in
list order, ignoring every later duplicate. -/
theorem C9_first_outlet0_entry_wins
    (pre1 : List Switch) (e1 : Switch) (rest1 : List Switch)
    (pre2 : List Startup) (e2 : Startup) (rest2 : List Startup)
    (h1 : ∀ x ∈ pre1, x.outlet ≠ 0) (he1 : e1.outlet = 0)
    (h2 : ∀ x ∈ pre2, x.outlet ≠ 0) (he2 : e2.outlet = 0) :
    Info.tryFrom { data := some { switches := pre1 ++ e1 :: rest1,
                                  configure := pre2 ++ e2 :: rest2 },
                   error := 0 } = .ok { switch := e1.switch, startup := e2.startup } := by
  have hf1 : (pre1 ++ e1 :: rest1).find? (fun s => s.outlet == OUTLET2USE) = some e1 := by
    refine find?_append_first _ _ _ _ (fun x hx => ?_) (by simp [OUTLET2USE, he1])
    simpa [OUTLET2USE] using h1 x hx
  have hf2 : (pre2 ++ e2 :: rest2).find? (fun s => s.outlet == OUTLET2USE) = some e2 := by
    refine find?_append_first _ _ _ _ (fun x hx => ?_) (by simp [OUTLET2USE, he2])
    simpa [OUTLET2USE] using h2 x hx
  simp [Info.tryFrom, hf1, hf2]

/-- C9 witness: a concrete envelope with duplicate outlet-0 entries in
both lists; the first ones (off switch, stay startup) win. -/
theorem C9_first_outlet0_entry_wins_witness :
    Info.tryFrom (InfoResponse.mk (some (InfoData.mk
        [{ switch := .on, outlet := 1 }, { switch := .off, outlet := 0 },
         { switch := .on, outlet := 0 }]
        [{ startup := .on, outlet := 2 }, { startup := .stay, outlet := 0 },
         { startup := .off, outlet := 0 }])) 0)
      = .ok { switch := .off, startup := .stay } :=
  C9_first_outlet0_entry_wins
    [{ switch := .on, outlet := 1 }] { switch := .off, outlet := 0 }
    [{ switch := .on, outlet := 0 }]
    [{ startup := .on, outlet := 2 }] { startup := .stay, outlet := 0 }
    [{ startup := .off, outlet := 0 }]
    (by decide) rfl (by decide) rfl

/-- C10: no panic branch is reachable on well-formed input: an info
envelope with error 0, data present and an outlet-0 entry in each list
does not crash; neither does an info envelope with error 400, nor an
empty envelope with error 0 or 400; and `from_api_error_code` is never
invoked with code 0 on any envelope. -/
theorem C10_no_panic_on_wellformed :
    (∀ (r : InfoResponse) (d : InfoData), r.error = 0 → r.data = some d →
      (∃ s ∈ d.switches, s.outlet = 0) → (∃ c ∈ d.configure, c.outlet = 0) →
      Info.tryFrom r ≠ .crash) ∧
    (∀ r : InfoResponse, r.error = 400 → Info.tryFrom r ≠ .crash) ∧
    (∀ r : EmptyResponse, r.error = 0 ∨ r.error = 400 →
      EmptyResponse.tryInto r ≠ .crash) ∧
    (∀ r : InfoResponse, 0 ∉ r.invokedApiErrorCodes) ∧
    (∀ r : EmptyResponse, 0 ∉ r.invokedApiErrorCodes) := by
  refine ⟨?_, ?_, ?_, ?_, ?_⟩
  · rintro ⟨rdata, rerr⟩ d herr hdata hs hc
    simp only at herr hdata
    subst herr
    subst hdata
    obtain ⟨s, hsmem, hs0⟩ := hs
    obtain ⟨c, hcmem, hc0⟩ := hc
    have h1 := find?_isSome_of_mem (fun x => x.outlet == OUTLET2USE) d.switches s hsmem
      (by simp [OUTLET2USE, hs0])
    have h2 := find?_isSome_of_mem (fun x => x.outlet == OUTLET2USE) d.configure c hcmem
      (by simp [OUTLET2USE, hc0])
    obtain ⟨sw, hsw⟩ := Option.isSome_iff_exists.mp h1
    obtain ⟨st, hst⟩ := Option.isSome_iff_exists.mp h2
    simp [Info.tryFrom, hsw, hst]
  · rintro ⟨rdata, rerr⟩ herr
    simp only at herr
    subst herr
    simp [Info.tryFrom, Error.fromApiErrorCode]
  · rintro ⟨rerr⟩ herr
    rcases herr with h | h <;> simp only at h <;> subst h <;>
      simp [EmptyResponse.tryInto, Error.fromApiErrorCode]
  · rintro ⟨rdata, rerr⟩
    cases rerr <;> simp [InfoResponse.invokedApiErrorCodes]
  · rintro ⟨rerr⟩
    cases rerr <;> simp [EmptyResponse.invokedApiErrorCodes]

/-- C10 witness: concrete well-formed envelopes of all three kinds do not
crash, and code 0 is never passed to the error-code translation. -/
theorem C10_no_panic_on_wellformed_witness :
    Info.tryFrom { data := some { switches := [{ switch := .on, outlet := 0 }],
                                  configure := [{ startup := .stay, outlet := 0 }] },
                   error := 0 } ≠ .crash ∧
    Info.tryFrom { data := none, error := 400 } ≠ .crash ∧
    EmptyResponse.tryInto { error := 400 } ≠ .crash ∧
    (0 : Nat) ∉ InfoResponse.invokedApiErrorCodes { data := none, error := 401 } :=
  ⟨C10_no_panic_on_wellformed.1 _
      (InfoData.mk [{ switch := .on, outlet := 0 }]
        [{ startup := .stay, outlet := 0 }]) rfl rfl
      ⟨{ switch := .on, outlet := 0 }, by simp, rfl⟩
      ⟨{ startup := .stay, outlet := 0 }, by simp, rfl⟩,
   C10_no_panic_on_wellformed.2.1 _ rfl,
   C10_no_panic_on_wellformed.2.2.1 _ (Or.inr rfl),
   C10_no_panic_on_wellformed.2.2.2.1 _⟩

end SonoffMiniR3
